import Mathlib

/-!
Verification of the phased intro-animation engine (observatory.js and the
landing-page script) against its natural-language specification.

The JavaScript is shallowly embedded:
  - JS numbers are modeled as exact rationals in the deterministic
    generation code (the arithmetic there is exact in the claims' margins),
    and as real numbers in the per-frame drawing code, where Math.sin and
    Math.cos are modeled by Real.sin and Real.cos.
  - Math.PI is the float64 constant 884279719003555 / 2^48; the generation
    code stores it exactly as that rational.
  - The JS remainder operator on integers is Int.tmod; the remainder with a
    zero divisor (which yields NaN in JS) is modeled as Option.none.
  - Stateful code (the requestAnimationFrame driven sequence controller) is
    modeled as an explicit step function over a state record, driven by a
    trace of frame/skip events.
-/

set_option exponentiation.threshold 20000
set_option maxRecDepth 100000

/-! ## Deterministic RNG (observatory.js lines 23-26)

  function seededRng(seed) {
      let s = seed;
      return function () { s = (s * 16807) % 2147483647; return (s - 1) / 2147483646; };
  }
-/

/-- One state update of the generator returned by seededRng:
s = (s * 16807) % 2147483647.  JS % on integers is the truncating
remainder, Int.tmod. -/
def rngNext (s : ℤ) : ℤ := Int.tmod (s * 16807) 2147483647

/-- The value returned for the updated state s: (s - 1) / 2147483646. -/
def rngOut (s : ℤ) : ℚ := ((s : ℚ) - 1) / 2147483646

/-- Closure state after n calls of the generator created by seededRng seed. -/
def seedState (seed : ℤ) : ℕ → ℤ
  | 0 => seed
  | n + 1 => rngNext (seedState seed n)

/-- The n-th float returned by a generator created by seededRng seed
(0-indexed): the output computed from the state after n + 1 updates. -/
def nthOutput (seed : ℤ) (n : ℕ) : ℚ := rngOut (seedState seed (n + 1))

/-- One run of n successive calls on a generator whose closure state is s,
collecting the returned floats in order. -/
def runFrom (s : ℤ) : ℕ → List ℚ
  | 0 => []
  | n + 1 => rngOut (rngNext s) :: runFrom (rngNext s) n

/-- The list of the first n floats produced by a fresh generator created by
seededRng seed. -/
def runGenerator (seed : ℤ) (n : ℕ) : List ℚ := runFrom seed n

/-! ## Closed form of the seed-42 stream used by initParticles

initParticles (observatory.js line 32) draws every generation-time value
from a single generator seededRng(42).  stc n is the state after n calls,
in closed form; it is proved equal to seedState 42 n below and lets the
kernel evaluate deep stream positions through a single modular power. -/

/-- Closed form of the state after n draws from seed 42. -/
def stc (n : ℕ) : ℕ := (42 * 16807 ^ n) % 2147483647

/-- The value of the k-th draw (1-indexed) of the seed-42 generator used by
initParticles. -/
def val (k : ℕ) : ℚ := rngOut (seedState 42 k)

/-! ### Range and closed-form lemmas for the RNG -/

theorem rngNext_mem (s : ℤ) (h1 : 1 ≤ s) (h2 : s ≤ 2147483646) :
    1 ≤ rngNext s ∧ rngNext s ≤ 2147483646 := by
  have hmulpos : 0 < s * 16807 := by positivity
  have htm : rngNext s = (s * 16807) % 2147483647 :=
    Int.tmod_eq_emod (le_of_lt hmulpos) (by norm_num)
  have hnn : 0 ≤ (s * 16807) % 2147483647 :=
    Int.emod_nonneg _ (by norm_num)
  have hlt : (s * 16807) % 2147483647 < 2147483647 :=
    Int.emod_lt_of_pos _ (by norm_num)
  have hne : (s * 16807) % 2147483647 ≠ 0 := by
    intro h0
    have hdvd : (2147483647 : ℤ) ∣ s * 16807 := Int.dvd_of_emod_eq_zero h0
    have hcop : IsCoprime (2147483647 : ℤ) 16807 := by
      rw [Int.isCoprime_iff_gcd_eq_one]; norm_num
    have hdvds : (2147483647 : ℤ) ∣ s := hcop.dvd_of_dvd_mul_right hdvd
    have := Int.le_of_dvd (by omega) hdvds
    omega
  constructor
  · omega
  · omega

theorem seedState_mem (seed : ℤ) (h1 : 1 ≤ seed) (h2 : seed ≤ 2147483646) :
    ∀ n, 1 ≤ seedState seed n ∧ seedState seed n ≤ 2147483646 := by
  intro n
  induction n with
  | zero => exact ⟨h1, h2⟩
  | succ n ih => exact rngNext_mem _ ih.1 ih.2

theorem rngOut_mem (s : ℤ) (h1 : 1 ≤ s) (h2 : s ≤ 2147483646) :
    0 ≤ rngOut s ∧ rngOut s < 1 := by
  unfold rngOut
  constructor
  · apply div_nonneg _ (by norm_num)
    have : (1 : ℚ) ≤ (s : ℚ) := by exact_mod_cast h1
    linarith
  · rw [div_lt_one (by norm_num)]
    have : (s : ℚ) ≤ 2147483646 := by exact_mod_cast h2
    linarith

theorem seedState42_eq_stc : ∀ n, seedState 42 n = (stc n : ℤ) := by
  intro n
  induction n with
  | zero => simp [seedState, stc]
  | succ n ih =>
    show rngNext (seedState 42 n) = _
    rw [ih]
    unfold rngNext stc
    have hnn : (0 : ℤ) ≤ ((42 * 16807 ^ n) % 2147483647 : ℕ) * 16807 := by positivity
    rw [Int.tmod_eq_emod hnn (by norm_num)]
    push_cast
    rw [Int.mul_emod, Int.emod_emod_of_dvd _ dvd_rfl, ← Int.mul_emod]
    ring_nf

theorem stc_mem (n : ℕ) : 1 ≤ stc n ∧ stc n ≤ 2147483646 := by
  have h := seedState_mem 42 (by norm_num) (by norm_num) n
  rw [seedState42_eq_stc] at h
  exact ⟨by exact_mod_cast h.1, by exact_mod_cast h.2⟩

theorem val_eq_stc (k : ℕ) : val k = ((stc k : ℚ) - 1) / 2147483646 := by
  unfold val rngOut
  rw [seedState42_eq_stc]
  push_cast
  ring_nf

theorem val_mem (k : ℕ) : 0 ≤ val k ∧ val k < 1 := by
  unfold val
  exact rngOut_mem _ ((seedState_mem 42 (by norm_num) (by norm_num) k).1)
    ((seedState_mem 42 (by norm_num) (by norm_num) k).2)

theorem seedState_shift (seed : ℤ) : ∀ n, seedState seed (n + 1) = seedState (rngNext seed) n := by
  intro n
  induction n with
  | zero => rfl
  | succ n ih => show rngNext (seedState seed (n + 1)) = _; rw [ih]; rfl

theorem runFrom_eq_map : ∀ (n : ℕ) (s : ℤ),
    runFrom s n = (List.range n).map (fun j => rngOut (seedState s (j + 1))) := by
  intro n
  induction n with
  | zero => intro s; rfl
  | succ n ih =>
    intro s
    rw [List.range_succ_eq_map, List.map_cons, List.map_map]
    show rngOut (rngNext s) :: runFrom (rngNext s) n = _
    rw [ih (rngNext s)]
    congr 1
    apply List.map_congr_left
    intro j _
    show rngOut (seedState (rngNext s) (j + 1)) = rngOut (seedState s (j + 1 + 1))
    rw [← seedState_shift]

/-! ## Particle pools (observatory.js initParticles, lines 31-149)

Pools are generated from a single seeded generator, seededRng(42).  Each
maker takes the loop index i and the number k of draws consumed so far and
returns the generated element together with the new draw count; val (k+1),
val (k+2), ... are the successive calls of r() in source order.  mathPi is
the exact rational value of the float64 constant Math.PI. -/

/-- Exact value of the float64 constant Math.PI. -/
def mathPi : ℚ := 884279719003555 / 281474976710656

structure BgStar where
  x : ℚ
  y : ℚ
  size : ℚ
  brightness : ℚ
  twinkle : ℚ
  speed : ℚ
  deriving DecidableEq

structure Dust where
  x : ℚ
  y : ℚ
  size : ℚ
  vx : ℚ
  vy : ℚ
  opacity : ℚ
  phase : ℚ
  deriving DecidableEq

structure LensRing where
  z : ℚ
  radius : ℚ
  hue : ℚ
  thickness : ℚ
  rotSpeed : ℚ
  deriving DecidableEq

structure GalaxyStar where
  angle : ℚ
  dist : ℚ
  size : ℚ
  hue : ℚ
  sat : ℚ
  br : ℚ
  twPhase : ℚ
  twSpeed : ℚ
  ySkew : ℚ
  deriving DecidableEq

structure NeuralNode where
  x : ℚ
  y : ℚ
  size : ℚ
  pPhase : ℚ
  pSpeed : ℚ
  deriving DecidableEq, Inhabited

/-- A neural edge; the source fields are named from/to. -/
structure NeuralEdge where
  fromIdx : ℕ
  toIdx : ℕ
  str : ℚ
  deriving DecidableEq

/-- A candlestick; the source fields are named open/close/high/low/bull. -/
structure Candle where
  openP : ℚ
  closeP : ℚ
  high : ℚ
  low : ℚ
  bull : Bool
  deriving DecidableEq

structure Comet where
  phase : ℚ
  speed : ℚ
  radius : ℚ
  ecc : ℚ
  hue : ℚ
  tail : ℚ
  deriving DecidableEq

structure OrderCol where
  x : ℚ
  height : ℚ
  width : ℚ
  hue : ℚ
  speed : ℚ
  phase : ℚ
  deriving DecidableEq

structure Neural where
  nodes : List NeuralNode
  edges : List NeuralEdge
  deriving DecidableEq

structure Pools where
  bgStars : List BgStar
  dust : List Dust
  lensRings : List LensRing
  stars : List GalaxyStar
  neural : Neural
  candles : List Candle
  comets : List Comet
  orderCols : List OrderCol
  deriving DecidableEq

/-- Runs a maker n times from loop index i and draw count k, collecting the
elements in loop order and threading the draw count, exactly like the
source for-loops that push one element per iteration. -/
def buildFrom {α : Type} (f : ℕ → ℕ → α × ℕ) : ℕ → ℕ → ℕ → List α × ℕ
  | 0, _, k => ([], k)
  | n + 1, i, k =>
    let ak := f i k
    let rest := buildFrom f n (i + 1) ak.2
    (ak.1 :: rest.1, rest.2)

def build {α : Type} (f : ℕ → ℕ → α × ℕ) (n k : ℕ) : List α × ℕ := buildFrom f n 0 k

/-- observatory.js lines 36-44 (background stars). -/
def mkBgStar (_i k : ℕ) : BgStar × ℕ :=
  (⟨val (k + 1), val (k + 2) * (4 / 10), 3 / 10 + val (k + 3) * (18 / 10),
    4 / 10 + val (k + 4) * (6 / 10), val (k + 5) * mathPi * 2,
    5 / 10 + val (k + 6) * 2⟩, k + 6)

/-- observatory.js lines 48-57 (dust motes). -/
def mkDust (_i k : ℕ) : Dust × ℕ :=
  (⟨val (k + 1), val (k + 2), 5 / 10 + val (k + 3) * (25 / 10),
    (val (k + 4) - 5 / 10) * (8 / 100), -(2 / 100) - val (k + 5) * (6 / 100),
    3 / 10 + val (k + 6) * (7 / 10), val (k + 7) * mathPi * 2⟩, k + 7)

/-- observatory.js lines 61-69 (lens rings). -/
def mkLensRing (i k : ℕ) : LensRing × ℕ :=
  (⟨(i : ℚ) * (9 / 100) + 3 / 100, 13 / 100 + val (k + 1) * (6 / 100),
    200 + (i : ℚ) * 16, 15 / 10 + val (k + 2) * (25 / 10),
    (val (k + 3) - 5 / 10) * (6 / 10000)⟩, k + 3)

/-- observatory.js lines 73-93 (galaxy stars): arm and color-sector
bucketing via Math.floor, then the remaining fields in source order. -/
def mkGalaxyStar (_i k : ℕ) : GalaxyStar × ℕ :=
  let arm : ℤ := ⌊val (k + 1) * 3⌋
  let armBase : ℚ := (arm : ℚ) * (mathPi * 2 / 3)
  let dist : ℚ := 15 / 1000 + val (k + 2) * (49 / 100)
  let spiral : ℚ := armBase + dist * (45 / 10) + (val (k + 3) - 5 / 10) * (55 / 100)
  let sec : ℤ := ⌊val (k + 4) * 4⌋
  let hue : ℚ := if sec = 0 then 215 else if sec = 1 then 30 else if sec = 2 then 150 else 275
  let sat : ℚ := if sec = 0 then 90 else if sec = 1 then 92 else if sec = 2 then 75 else 70
  (⟨spiral, dist, 4 / 10 + val (k + 5) * 3, hue + (val (k + 6) - 5 / 10) * 22, sat,
    2 / 10 + val (k + 7) * (8 / 10), val (k + 8) * mathPi * 2,
    3 / 10 + val (k + 9) * (25 / 10), 45 / 100 + val (k + 10) * (45 / 100)⟩, k + 10)

/-- observatory.js lines 97-103 (neural nodes). -/
def mkNeuralNode (_i k : ℕ) : NeuralNode × ℕ :=
  (⟨(val (k + 1) - 5 / 10) * (95 / 100), (val (k + 2) - 5 / 10) * (95 / 100),
    2 + val (k + 3) * 7, val (k + 4) * mathPi * 2, 3 / 10 + val (k + 5) * (18 / 10)⟩, k + 5)

/-- observatory.js lines 104-110, one candidate pair (i, j): the source
tests Math.sqrt(dx*dx + dy*dy) < 0.26 (equivalently, the squared distance
is below 0.26 squared); && short-circuits, so r() is drawn only when the
distance test passes, and the str field draws once more. -/
def edgePair (nodes : List NeuralNode) (i j : ℕ) (acc : List NeuralEdge × ℕ) :
    List NeuralEdge × ℕ :=
  let ni := nodes.getD i default
  let nj := nodes.getD j default
  let dx := ni.x - nj.x
  let dy := ni.y - nj.y
  if dx * dx + dy * dy < (26 / 100 : ℚ) ^ 2 then
    if val (acc.2 + 1) > 3 / 10 then
      (acc.1 ++ [⟨i, j, 25 / 100 + val (acc.2 + 2) * (75 / 100)⟩], acc.2 + 2)
    else (acc.1, acc.2 + 1)
  else acc

/-- The inner loop for j from i + 1 to nodes.length - 1. -/
def edgeRow (nodes : List NeuralNode) (i : ℕ) (acc : List NeuralEdge × ℕ) :
    List NeuralEdge × ℕ :=
  ((List.range nodes.length).drop (i + 1)).foldl (fun a j => edgePair nodes i j a) acc

/-- The outer loop, processing n rows starting at row r. -/
def edgeRowsFrom (nodes : List NeuralNode) : ℕ → ℕ → List NeuralEdge × ℕ → List NeuralEdge × ℕ
  | _, 0, acc => acc
  | r, n + 1, acc => edgeRowsFrom nodes (r + 1) n (edgeRow nodes r acc)

/-- observatory.js lines 104-110 (neural edges): the double loop over pairs
i < j in row-major order. -/
def buildEdges (nodes : List NeuralNode) (k : ℕ) : List NeuralEdge × ℕ :=
  edgeRowsFrom nodes 0 nodes.length ([], k)

/-- observatory.js lines 113-122 (candlesticks). -/
def mkCandle (_i k : ℕ) : Candle × ℕ :=
  let o : ℚ := 3 / 10 + val (k + 1) * (4 / 10)
  let c : ℚ := 3 / 10 + val (k + 2) * (4 / 10)
  (⟨o, c, max o c + val (k + 3) * (8 / 100), min o c - val (k + 4) * (8 / 100),
    decide (c > o)⟩, k + 4)

/-- observatory.js lines 126-135 (comets). -/
def mkComet (_i k : ℕ) : Comet × ℕ :=
  (⟨val (k + 1) * mathPi * 2, 3 / 10000 + val (k + 2) * (9 / 10000),
    15 / 100 + val (k + 3) * (35 / 100), 2 / 10 + val (k + 4) * (5 / 10),
    165 + val (k + 5) * 75, 15 + val (k + 6) * 35⟩, k + 6)

/-- observatory.js lines 139-148 (order columns). -/
def mkOrderCol (_i k : ℕ) : OrderCol × ℕ :=
  (⟨(val (k + 1) - 5 / 10) * (18 / 10), 4 / 100 + val (k + 2) * (28 / 100),
    6 / 1000 + val (k + 3) * (14 / 1000),
    if val (k + 4) > 5 / 10 then 135 else 355,
    4 / 10 + val (k + 5) * (18 / 10), val (k + 6) * mathPi * 2⟩, k + 6)

/-- observatory.js initParticles (lines 31-149): rebuilds every pool from a
fresh seededRng(42) stream.  The viewport dimensions are parameters of the
enclosing module state but the function body never reads them. -/
def initParticles (_w _h : ℚ) : Pools :=
  let bg := build mkBgStar 180 0
  let du := build mkDust 300 bg.2
  let lr := build mkLensRing 12 du.2
  let st := build mkGalaxyStar 800 lr.2
  let nn := build mkNeuralNode 55 st.2
  let ne := buildEdges nn.1 nn.2
  let ca := build mkCandle 80 ne.2
  let co := build mkComet 12 ca.2
  let oc := build mkOrderCol 45 co.2
  { bgStars := bg.1, dust := du.1, lensRings := lr.1, stars := st.1,
    neural := { nodes := nn.1, edges := ne.1 }, candles := ca.1,
    comets := co.1, orderCols := oc.1 }

/-! ### Generic lemmas about the pool builders -/

theorem buildFrom_snd {α : Type} (f : ℕ → ℕ → α × ℕ) (stride : ℕ)
    (hf : ∀ i k, (f i k).2 = k + stride) :
    ∀ n i k, (buildFrom f n i k).2 = k + n * stride := by
  intro n
  induction n with
  | zero => intro i k; simp [buildFrom]
  | succ n ih =>
    intro i k
    show (buildFrom f n (i + 1) (f i k).2).2 = _
    rw [ih, hf]
    ring

theorem buildFrom_length {α : Type} (f : ℕ → ℕ → α × ℕ) :
    ∀ n i k, (buildFrom f n i k).1.length = n := by
  intro n
  induction n with
  | zero => intro i k; rfl
  | succ n ih =>
    intro i k
    show ((f i k).1 :: (buildFrom f n (i + 1) (f i k).2).1).length = n + 1
    rw [List.length_cons, ih]

theorem buildFrom_get? {α : Type} (f : ℕ → ℕ → α × ℕ) (stride : ℕ)
    (hf : ∀ i k, (f i k).2 = k + stride) :
    ∀ n i k j, j < n →
      (buildFrom f n i k).1.get? j = some (f (i + j) (k + j * stride)).1 := by
  intro n
  induction n with
  | zero => intro i k j hj; omega
  | succ n ih =>
    intro i k j hj
    match j with
    | 0 => simp [buildFrom]
    | j + 1 =>
      show ((f i k).1 :: (buildFrom f n (i + 1) (f i k).2).1).get? (j + 1) = _
      rw [List.get?_cons_succ, ih _ _ j (by omega), hf]
      have h1 : i + 1 + j = i + (j + 1) := by omega
      have h2 : k + stride + j * stride = k + (j + 1) * stride := by ring
      rw [h1, h2]

theorem buildFrom_mem {α : Type} (f : ℕ → ℕ → α × ℕ) (stride : ℕ)
    (hf : ∀ i k, (f i k).2 = k + stride) :
    ∀ n i k x, x ∈ (buildFrom f n i k).1 → ∃ j, j < n ∧ x = (f (i + j) (k + j * stride)).1 := by
  intro n
  induction n with
  | zero => intro i k x hx; simp [buildFrom] at hx
  | succ n ih =>
    intro i k x hx
    rcases List.mem_cons.mp hx with h | h
    · exact ⟨0, by omega, by simpa using h⟩
    · obtain ⟨j, hj, hxe⟩ := ih (i + 1) (f i k).2 x h
      refine ⟨j + 1, by omega, ?_⟩
      rw [hxe, hf]
      congr 2
      · omega
      · ring

theorem build_snd {α : Type} (f : ℕ → ℕ → α × ℕ) (stride : ℕ)
    (hf : ∀ i k, (f i k).2 = k + stride) (n k : ℕ) :
    (build f n k).2 = k + n * stride := buildFrom_snd f stride hf n 0 k

theorem build_get? {α : Type} (f : ℕ → ℕ → α × ℕ) (stride : ℕ)
    (hf : ∀ i k, (f i k).2 = k + stride) (n k j : ℕ) (hj : j < n) :
    (build f n k).1.get? j = some (f j (k + j * stride)).1 := by
  have := buildFrom_get? f stride hf n 0 k j hj
  simpa using this

/-! ### Stride facts for the individual makers -/

theorem mkBgStar_snd : ∀ i k, (mkBgStar i k).2 = k + 6 := fun _ _ => rfl

theorem mkDust_snd : ∀ i k, (mkDust i k).2 = k + 7 := fun _ _ => rfl

theorem mkLensRing_snd : ∀ i k, (mkLensRing i k).2 = k + 3 := fun _ _ => rfl

theorem mkGalaxyStar_snd : ∀ i k, (mkGalaxyStar i k).2 = k + 10 := fun _ _ => rfl

theorem mkNeuralNode_snd : ∀ i k, (mkNeuralNode i k).2 = k + 5 := fun _ _ => rfl

theorem mkCandle_snd : ∀ i k, (mkCandle i k).2 = k + 4 := fun _ _ => rfl

/-! ### Evaluating the edge walk

The neural nodes are generated at draw counter 11216 (180*6 + 300*7 + 12*3
+ 800*10 draws precede them), and the edge double-loop starts at counter
11491.  The walk below mirrors the counter evolution of the double loop
with all comparisons rephrased over the integers, which lets the kernel
settle each draw through the closed form stc; it is proved equivalent to
the pool model and then evaluated in row chunks. -/

/-- The nodes list actually passed to the edge loop. -/
def nodes55 : List NeuralNode := (build mkNeuralNode 55 11216).1

/-- Numerator of node i's x coordinate: stc at its draw position, less 1. -/
def uN (i : ℕ) : ℤ := (stc (11217 + 5 * i) : ℤ) - 1

/-- Numerator of node i's y coordinate. -/
def vN (i : ℕ) : ℤ := (stc (11218 + 5 * i) : ℤ) - 1

/-- Integer form of the distance test of observatory.js line 108. -/
def pairCloseB (i j : ℕ) : Bool :=
  decide (9025 * ((uN i - uN j) ^ 2 + (vN i - vN j) ^ 2) < 676 * 2147483646 ^ 2)

/-- Integer form of the keep test r() > 0.3, for edge-draw counter c
(stc is at least 1 everywhere, so the natural subtraction is exact). -/
def pairKeepB (c : ℕ) : Bool :=
  decide (3 * 2147483646 < 10 * (stc (11492 + c) - 1))

/-- Edge-draw counter evolution for one candidate pair. -/
def pairStepN (i c j : ℕ) : ℕ :=
  if pairCloseB i j then (if pairKeepB c then c + 2 else c + 1) else c

/-- Counter evolution across row i (inner loop). -/
def rowWalkN (i c : ℕ) : ℕ := ((List.range 55).drop (i + 1)).foldl (pairStepN i) c

/-- Counter evolution across n rows starting at row r (outer loop). -/
def rowsFromN : ℕ → ℕ → ℕ → ℕ
  | _, 0, c => c
  | r, n + 1, c => rowsFromN (r + 1) n (rowWalkN r c)

theorem nodes55_length : nodes55.length = 55 := buildFrom_length mkNeuralNode 55 0 11216

theorem nodes55_get (i : ℕ) (hi : i < 55) :
    nodes55.getD i default = (mkNeuralNode i (11216 + 5 * i)).1 := by
  unfold nodes55
  rw [List.getD_eq_get?, build_get? mkNeuralNode 5 mkNeuralNode_snd 55 11216 i hi,
    Option.getD_some, Nat.mul_comm]

theorem distSq_lt_iff (a b : ℤ) :
    ((a : ℚ) * (19 / 20) / 2147483646) * ((a : ℚ) * (19 / 20) / 2147483646) +
      ((b : ℚ) * (19 / 20) / 2147483646) * ((b : ℚ) * (19 / 20) / 2147483646) <
      (26 / 100 : ℚ) ^ 2 ↔
    9025 * (a ^ 2 + b ^ 2) < 676 * 2147483646 ^ 2 := by
  have h1 : ((a : ℚ) * (19 / 20) / 2147483646) * ((a : ℚ) * (19 / 20) / 2147483646) +
      ((b : ℚ) * (19 / 20) / 2147483646) * ((b : ℚ) * (19 / 20) / 2147483646) =
      361 * ((a : ℚ) ^ 2 + (b : ℚ) ^ 2) / (400 * 2147483646 ^ 2) := by
    ring
  rw [h1, div_lt_iff (by positivity)]
  constructor
  · intro h
    have hq : (9025 : ℚ) * ((a : ℚ) ^ 2 + (b : ℚ) ^ 2) < 676 * 2147483646 ^ 2 := by
      nlinarith [h]
    exact_mod_cast hq
  · intro h
    have hq : (9025 : ℚ) * ((a : ℚ) ^ 2 + (b : ℚ) ^ 2) < 676 * 2147483646 ^ 2 := by
      exact_mod_cast h
    nlinarith [hq]

theorem keep_iff (m : ℕ) :
    val m > 3 / 10 ↔ 3 * 2147483646 < 10 * (stc m - 1) := by
  have h1 : 1 ≤ stc m := (stc_mem m).1
  rw [val_eq_stc, gt_iff_lt, div_lt_div_iff (by norm_num) (by norm_num)]
  constructor
  · intro h
    have hq : (3 : ℚ) * 2147483646 < 10 * ((stc m : ℚ) - 1) := by linarith
    have hz : (3 * 2147483646 : ℕ) < 10 * (stc m - 1) := by
      zify [h1]
      exact_mod_cast hq
    exact hz
  · intro h
    have hq : (3 : ℚ) * 2147483646 < 10 * ((stc m : ℚ) - 1) := by
      zify [h1] at h
      exact_mod_cast h
    linarith

theorem edgePair_counter (i j : ℕ) (hi : i < 55) (hj : j < 55)
    (es : List NeuralEdge) (c : ℕ) :
    ∃ es', edgePair nodes55 i j (es, 11491 + c) = (es', 11491 + pairStepN i c j) := by
  have hni := nodes55_get i hi
  have hnj := nodes55_get j hj
  have hx : (nodes55.getD i default).x - (nodes55.getD j default).x =
      ((uN i - uN j : ℤ) : ℚ) * (19 / 20) / 2147483646 := by
    rw [hni, hnj]
    show (val (11216 + 5 * i + 1) - 5 / 10) * (95 / 100) -
      (val (11216 + 5 * j + 1) - 5 / 10) * (95 / 100) = _
    rw [show 11216 + 5 * i + 1 = 11217 + 5 * i from by omega,
      show 11216 + 5 * j + 1 = 11217 + 5 * j from by omega,
      val_eq_stc, val_eq_stc]
    unfold uN
    push_cast
    ring
  have hy : (nodes55.getD i default).y - (nodes55.getD j default).y =
      ((vN i - vN j : ℤ) : ℚ) * (19 / 20) / 2147483646 := by
    rw [hni, hnj]
    show (val (11216 + 5 * i + 2) - 5 / 10) * (95 / 100) -
      (val (11216 + 5 * j + 2) - 5 / 10) * (95 / 100) = _
    rw [show 11216 + 5 * i + 2 = 11218 + 5 * i from by omega,
      show 11216 + 5 * j + 2 = 11218 + 5 * j from by omega,
      val_eq_stc, val_eq_stc]
    unfold vN
    push_cast
    ring
  dsimp only [edgePair, pairStepN]
  rw [hx, hy]
  simp only [distSq_lt_iff, pairCloseB, pairKeepB, decide_eq_true_eq,
    show 11491 + c + 1 = 11492 + c from by omega, keep_iff]
  split_ifs with h1 h2
  · exact ⟨_, by rw [show 11491 + c + 2 = 11491 + (c + 2) from by omega]⟩
  · exact ⟨es, by rw [show 11492 + c = 11491 + (c + 1) from by omega]⟩
  · exact ⟨es, rfl⟩

theorem foldl_pairs_counter (i : ℕ) (hi : i < 55) :
    ∀ (js : List ℕ), (∀ j ∈ js, j < 55) → ∀ (es : List NeuralEdge) (c : ℕ),
      ∃ es', js.foldl (fun a j => edgePair nodes55 i j a) (es, 11491 + c) =
        (es', 11491 + js.foldl (pairStepN i) c) := by
  intro js
  induction js with
  | nil => intro _ es c; exact ⟨es, rfl⟩
  | cons j js ih =>
    intro hjs es c
    obtain ⟨es1, he⟩ := edgePair_counter i j hi (hjs j (List.mem_cons_self j js)) es c
    rw [List.foldl_cons, List.foldl_cons, he]
    exact ih (fun x hx => hjs x (List.mem_cons_of_mem j hx)) es1 (pairStepN i c j)

theorem edgeRow_counter (i : ℕ) (hi : i < 55) (es : List NeuralEdge) (c : ℕ) :
    ∃ es', edgeRow nodes55 i (es, 11491 + c) = (es', 11491 + rowWalkN i c) := by
  unfold edgeRow rowWalkN
  rw [nodes55_length]
  exact foldl_pairs_counter i hi _
    (fun j hj => List.mem_range.mp (List.mem_of_mem_drop hj)) es c

theorem edgeRowsFrom_counter :
    ∀ (n r : ℕ), r + n ≤ 55 → ∀ (es : List NeuralEdge) (c : ℕ),
      ∃ es', edgeRowsFrom nodes55 r n (es, 11491 + c) = (es', 11491 + rowsFromN r n c) := by
  intro n
  induction n with
  | zero => intro r _ es c; exact ⟨es, rfl⟩
  | succ n ih =>
    intro r hr es c
    obtain ⟨es1, he⟩ := edgeRow_counter r (by omega) es c
    show ∃ es', edgeRowsFrom nodes55 (r + 1) n (edgeRow nodes55 r (es, 11491 + c)) = _
    rw [he]
    exact ih (r + 1) (by omega) es1 (rowWalkN r c)

theorem rowsFromN_add : ∀ (m n r c : ℕ),
    rowsFromN r (m + n) c = rowsFromN (r + m) n (rowsFromN r m c) := by
  intro m
  induction m with
  | zero => intro n r c; simp [rowsFromN, Nat.zero_add]
  | succ m ih =>
    intro n r c
    rw [show m + 1 + n = (m + n) + 1 from by omega]
    show rowsFromN (r + 1) (m + n) (rowWalkN r c) = _
    rw [ih n (r + 1) (rowWalkN r c)]
    rw [show r + (m + 1) = r + 1 + m from by omega]
    rfl

theorem rowsFromN_total : rowsFromN 0 55 0 = 510 := by
  have e1 : rowsFromN 0 9 0 = 159 := by decide
  have e2 : rowsFromN 9 9 159 = 292 := by decide
  have e3 : rowsFromN 18 9 292 = 398 := by decide
  have e4 : rowsFromN 27 9 398 = 470 := by decide
  have e5 : rowsFromN 36 9 470 = 497 := by decide
  have e6 : rowsFromN 45 10 497 = 510 := by decide
  have c1 : rowsFromN 0 55 0 = rowsFromN 9 46 159 := by
    have h := rowsFromN_add 9 46 0 0
    simpa [e1] using h
  have c2 : rowsFromN 9 46 159 = rowsFromN 18 37 292 := by
    have h := rowsFromN_add 9 37 9 159
    simpa [e2] using h
  have c3 : rowsFromN 18 37 292 = rowsFromN 27 28 398 := by
    have h := rowsFromN_add 9 28 18 292
    simpa [e3] using h
  have c4 : rowsFromN 27 28 398 = rowsFromN 36 19 470 := by
    have h := rowsFromN_add 9 19 27 398
    simpa [e4] using h
  have c5 : rowsFromN 36 19 470 = rowsFromN 45 10 497 := by
    have h := rowsFromN_add 9 10 36 470
    simpa [e5] using h
  rw [c1, c2, c3, c4, c5, e6]

theorem buildEdges_snd : (buildEdges nodes55 11491).2 = 12001 := by
  unfold buildEdges
  rw [nodes55_length]
  obtain ⟨es', he⟩ := edgeRowsFrom_counter 55 0 (by omega) [] 0
  have he' : edgeRowsFrom nodes55 0 55 ([], 11491) = (es', 11491 + rowsFromN 0 55 0) := by
    simpa using he
  rw [he', rowsFromN_total]

theorem initParticles_candles (w h : ℚ) :
    (initParticles w h).candles = (build mkCandle 80 12001).1 := by
  have h1 : (build mkBgStar 180 0).2 = 1080 := by
    rw [build_snd mkBgStar 6 mkBgStar_snd]
  have h2 : (build mkDust 300 1080).2 = 3180 := by
    rw [build_snd mkDust 7 mkDust_snd]
  have h3 : (build mkLensRing 12 3180).2 = 3216 := by
    rw [build_snd mkLensRing 3 mkLensRing_snd]
  have h4 : (build mkGalaxyStar 800 3216).2 = 11216 := by
    rw [build_snd mkGalaxyStar 10 mkGalaxyStar_snd]
  have h5 : (build mkNeuralNode 55 11216).2 = 11491 := by
    rw [build_snd mkNeuralNode 5 mkNeuralNode_snd]
  dsimp only [initParticles]
  rw [h1, h2, h3, h4, h5]
  rw [show (build mkNeuralNode 55 11216).1 = nodes55 from rfl, buildEdges_snd]

theorem candles_get35 (w h : ℚ) :
    (initParticles w h).candles.get? 35 = some (mkCandle 35 12141).1 := by
  rw [initParticles_candles, build_get? mkCandle 4 mkCandle_snd 80 12001 35 (by norm_num)]

/-- The exact generated values of candle number 35. -/
theorem candle35_val :
    (mkCandle 35 12141).1 =
      { openP := 2352610157 / 3579139410, closeP := 4697542873 / 10737418230,
        high := 11909912519 / 17895697050, low := 1539720373 / 3579139410,
        bull := false } := by
  have v1 : stc 12142 = 1918302502 := by decide
  have v2 : stc 12143 = 738158703 := by decide
  have v3 : stc 12144 = 220292602 := by decide
  have v4 : stc 12145 = 195954386 := by decide
  dsimp only [mkCandle]
  have ho : (3 / 10 + val (12141 + 1) * (4 / 10) : ℚ) = 2352610157 / 3579139410 := by
    rw [show (12141 + 1 : ℕ) = 12142 from rfl, val_eq_stc, v1]; norm_num
  have hc : (3 / 10 + val (12141 + 2) * (4 / 10) : ℚ) = 4697542873 / 10737418230 := by
    rw [show (12141 + 2 : ℕ) = 12143 from rfl, val_eq_stc, v2]; norm_num
  rw [Candle.mk.injEq]
  refine ⟨ho, hc, ?_, ?_, ?_⟩
  · rw [ho, hc, max_eq_left (by norm_num), show (12141 + 3 : ℕ) = 12144 from rfl,
      val_eq_stc, v3]
    norm_num
  · rw [ho, hc, min_eq_right (by norm_num), show (12141 + 4 : ℕ) = 12145 from rfl,
      val_eq_stc, v4]
    norm_num
  · rw [ho, hc]
    norm_num

/-! ## Phase scheduler (observatory.js render, lines 1563-1597)

    const phases = [
        [drawApproach, 0, 9000],
        [drawOptics, 6000, 18000],
        [drawDataTransform, 15000, 26000],
        [drawCosmos, 23000, 32000]
    ];
    for (const [fn, start, end] of phases) {
        if (elapsed >= start && elapsed <= end) {
            const t = (elapsed - start) / (end - start);
            fn(t, elapsed, zoom);
        }
    }
-/

/-- observatory.js line 11. -/
def DURATION : ℚ := 32000

inductive PhaseId
  | approach
  | optics
  | dataTransform
  | cosmos
  deriving DecidableEq

/-- The phase table of observatory.js lines 1582-1587, in listed
(back-to-front) order. -/
def phases : List (PhaseId × ℚ × ℚ) :=
  [(PhaseId.approach, 0, 9000), (PhaseId.optics, 6000, 18000),
   (PhaseId.dataTransform, 15000, 26000), (PhaseId.cosmos, 23000, 32000)]

/-- Local progress (observatory.js line 1591). -/
def localT (elapsed s e : ℚ) : ℚ := (elapsed - s) / (e - s)

/-- One pass of the phase loop: the renderers invoked this frame together
with the local progress passed to each, in list order. -/
def frameInvocations (elapsed : ℚ) : List (PhaseId × ℚ) :=
  phases.filterMap fun p =>
    if p.2.1 ≤ elapsed ∧ elapsed ≤ p.2.2 then some (p.1, localT elapsed p.2.1 p.2.2)
    else none

/-! ## Sequence controller (observatory.js lines 1563-1627)

The controller is modeled as a state record driven by a trace of events: a
frame event is the host delivering the pending requestAnimationFrame
callback at a timestamp, and a skip event is a call of skip().  The record
carries the module variables startTime / skipped / animFrameId plus a
pending flag (a scheduled frame exists at the host) and observation
counters: paints, callbacks (onComplete invocations) and naturals (the
completion branch of render). -/

inductive PaintKind
  | solidFinal
  | scene
  deriving DecidableEq

structure CtrlState where
  startTime : Option ℚ
  skipped : Bool
  animId : Bool
  pending : Bool
  callbacks : ℕ
  naturals : ℕ
  paints : ℕ
  lastPaint : Option PaintKind
  deriving DecidableEq

/-- State set up by start(canvasEl, completeFn), lines 1603-1613: clock
unset, skipped false, pools rebuilt, first frame requested. -/
def startState : CtrlState :=
  { startTime := none, skipped := false, animId := true, pending := true,
    callbacks := 0, naturals := 0, paints := 0, lastPaint := none }

/-- Body of render(timestamp), lines 1563-1597: early return when skipped;
set startTime on the first frame; on elapsed at or past DURATION paint a
final solid frame, invoke onComplete, and request no further frame;
otherwise paint the scene frame and request the next frame. -/
def renderBody (ts : ℚ) (st : CtrlState) : CtrlState :=
  if st.skipped then st
  else
    let s0 := st.startTime.getD ts
    let st1 := { st with startTime := some s0 }
    if DURATION ≤ ts - s0 then
      { st1 with
        paints := st1.paints + 1
        lastPaint := some PaintKind.solidFinal
        callbacks := st1.callbacks + 1
        naturals := st1.naturals + 1 }
    else
      { st1 with
        paints := st1.paints + 1
        lastPaint := some PaintKind.scene
        pending := true
        animId := true }

/-- Host delivery of a scheduled animation frame: fires only when one is
pending, consuming it before the body runs. -/
def hostFrame (ts : ℚ) (st : CtrlState) : CtrlState :=
  if st.pending then renderBody ts { st with pending := false } else st

/-- skip(), lines 1614-1620: set skipped, cancel the pending frame if an id
is held, paint a final solid frame, and invoke onComplete -- with no
terminal-state guard. -/
def skipFn (st : CtrlState) : CtrlState :=
  let st1 := { st with skipped := true }
  let st2 := if st1.animId then { st1 with pending := false, animId := false } else st1
  { st2 with
    paints := st2.paints + 1
    lastPaint := some PaintKind.solidFinal
    callbacks := st2.callbacks + 1 }

inductive Ev
  | frame (ts : ℚ)
  | skip
  deriving DecidableEq

def step (st : CtrlState) (e : Ev) : CtrlState :=
  match e with
  | Ev.frame ts => hostFrame ts st
  | Ev.skip => skipFn st

/-- A whole run: start() followed by the events of the trace. -/
def runTrace (evs : List Ev) : CtrlState := evs.foldl step startState

def countSkips : List Ev → ℕ
  | [] => 0
  | Ev.frame _ :: r => countSkips r
  | Ev.skip :: r => countSkips r + 1

/-- Reachability invariant: the completion branch has run at most once, and
after it no frame is pending. -/
def CtrlInv (st : CtrlState) : Prop :=
  st.naturals ≤ 1 ∧ (st.naturals = 1 → st.pending = false)

/-- The number of callback invocations contributed by one event in
isolation at a non-terminal state: one for a skip, none for a frame. -/
def evSkip : Ev → ℕ
  | Ev.skip => 1
  | Ev.frame _ => 0

theorem step_frame_nopending (st : CtrlState) (ts : ℚ) (hp : st.pending = false) :
    step st (Ev.frame ts) = st := by
  simp [step, hostFrame, hp]

theorem step_frame_skipped (st : CtrlState) (ts : ℚ) (hp : st.pending = true)
    (hsk : st.skipped = true) :
    step st (Ev.frame ts) = { st with pending := false } := by
  simp [step, hostFrame, renderBody, hp, hsk]

theorem step_frame_complete (st : CtrlState) (ts : ℚ) (hp : st.pending = true)
    (hsk : st.skipped = false) (hd : DURATION ≤ ts - st.startTime.getD ts) :
    step st (Ev.frame ts) =
      { st with
        pending := false
        startTime := some (st.startTime.getD ts)
        paints := st.paints + 1
        lastPaint := some PaintKind.solidFinal
        callbacks := st.callbacks + 1
        naturals := st.naturals + 1 } := by
  simp [step, hostFrame, renderBody, hp, hsk, hd]

theorem step_frame_scene (st : CtrlState) (ts : ℚ) (hp : st.pending = true)
    (hsk : st.skipped = false) (hd : ¬ DURATION ≤ ts - st.startTime.getD ts) :
    step st (Ev.frame ts) =
      { st with
        pending := true
        animId := true
        startTime := some (st.startTime.getD ts)
        paints := st.paints + 1
        lastPaint := some PaintKind.scene } := by
  simp [step, hostFrame, renderBody, hp, hsk, hd]

theorem step_skip_anim (st : CtrlState) (ha : st.animId = true) :
    step st Ev.skip =
      { st with
        skipped := true
        pending := false
        animId := false
        paints := st.paints + 1
        lastPaint := some PaintKind.solidFinal
        callbacks := st.callbacks + 1 } := by
  simp [step, skipFn, ha]

theorem step_skip_noanim (st : CtrlState) (ha : st.animId = false) :
    step st Ev.skip =
      { st with
        skipped := true
        paints := st.paints + 1
        lastPaint := some PaintKind.solidFinal
        callbacks := st.callbacks + 1 } := by
  simp [step, skipFn, ha]

theorem step_accounting (st : CtrlState) (e : Ev) (h : CtrlInv st) :
    CtrlInv (step st e) ∧
      (step st e).callbacks + st.naturals =
        st.callbacks + evSkip e + (step st e).naturals := by
  obtain ⟨hn, hnp⟩ := h
  cases e with
  | skip =>
    cases ha : st.animId with
    | false =>
      rw [step_skip_noanim st ha]
      refine ⟨⟨by simpa using hn, ?_⟩, ?_⟩
      · intro h1
        simp only at h1
        simpa using hnp h1
      · simp [evSkip]
    | true =>
      rw [step_skip_anim st ha]
      refine ⟨⟨by simpa using hn, fun _ => rfl⟩, ?_⟩
      simp [evSkip]
  | frame ts =>
    cases hp : st.pending with
    | false =>
      rw [step_frame_nopending st ts hp]
      exact ⟨⟨hn, hnp⟩, by simp [evSkip]⟩
    | true =>
      have hn0 : st.naturals = 0 := by
        rcases Nat.lt_or_ge st.naturals 1 with h1 | h1
        · omega
        · have h2 := hnp (by omega)
          rw [h2] at hp
          exact absurd hp (by simp)
      cases hsk : st.skipped with
      | true =>
        rw [step_frame_skipped st ts hp hsk]
        exact ⟨⟨by simpa using hn, fun _ => rfl⟩, by simp [evSkip]⟩
      | false =>
        by_cases hd : DURATION ≤ ts - st.startTime.getD ts
        · rw [step_frame_complete st ts hp hsk hd]
          refine ⟨⟨by simp [hn0], fun _ => rfl⟩, ?_⟩
          simp [evSkip]
          omega
        · rw [step_frame_scene st ts hp hsk hd]
          refine ⟨⟨by simp [hn0], ?_⟩, by simp [evSkip]⟩
          intro h1
          simp only at h1
          omega

theorem run_accounting : ∀ (evs : List Ev) (st : CtrlState), CtrlInv st →
    CtrlInv (evs.foldl step st) ∧
      (evs.foldl step st).callbacks + st.naturals =
        st.callbacks + countSkips evs + (evs.foldl step st).naturals := by
  intro evs
  induction evs with
  | nil => intro st h; exact ⟨h, by simp [countSkips]⟩
  | cons e evs ih =>
    intro st h
    obtain ⟨h1, h2⟩ := step_accounting st e h
    obtain ⟨h3, h4⟩ := ih (step st e) h1
    refine ⟨h3, ?_⟩
    have hsk : countSkips (e :: evs) = evSkip e + countSkips evs := by
      cases e <;> simp [countSkips, evSkip] <;> omega
    rw [List.foldl_cons, hsk]
    omega

/-- Frames delivered to a controller that is skipped with nothing pending
have no effect at all. -/
theorem frames_noop : ∀ (tss : List ℚ) (st : CtrlState),
    st.skipped = true → st.pending = false →
    (tss.map Ev.frame).foldl step st = st := by
  intro tss
  induction tss with
  | nil => intro st _ _; rfl
  | cons ts tss ih =>
    intro st hsk hp
    rw [List.map_cons, List.foldl_cons]
    have : step st (Ev.frame ts) = st := by simp [step, hostFrame, hp]
    rw [this]
    exact ih st hsk hp

/-! ## Real-valued drawing utilities (observatory.js lines 14-22)

The per-frame drawing code calls Math.sin / Math.cos; it is modeled over
the reals with Real.sin / Real.cos. -/

noncomputable def clampR (v lo hi : ℝ) : ℝ := max lo (min hi v)

/-- observatory.js lines 19-22. -/
noncomputable def smoothstepR (e0 e1 x : ℝ) : ℝ :=
  let t := clampR ((x - e0) / (e1 - e0)) 0 1
  t * t * (3 - 2 * t)

noncomputable def lerpR (a b t : ℝ) : ℝ := a + (b - a) * t

theorem smoothstepR_of_ge (e0 e1 x : ℝ) (hlt : e0 < e1) (hge : e1 ≤ x) :
    smoothstepR e0 e1 x = 1 := by
  unfold smoothstepR clampR
  have h1 : (1 : ℝ) ≤ (x - e0) / (e1 - e0) := by
    rw [le_div_iff (by linarith)]
    linarith
  rw [min_eq_left h1, max_eq_right (by norm_num : (0:ℝ) ≤ 1)]
  norm_num

theorem smoothstepR_of_le (e0 e1 x : ℝ) (hlt : e0 < e1) (hle : x ≤ e0) :
    smoothstepR e0 e1 x = 0 := by
  unfold smoothstepR clampR
  have h1 : (x - e0) / (e1 - e0) ≤ 0 := by
    apply div_nonpos_of_nonpos_of_nonneg <;> linarith
  rw [min_eq_right (by linarith : (x - e0) / (e1 - e0) ≤ 1), max_eq_left h1]
  norm_num

/-! ## Candlestick jitter in drawCosmos (observatory.js lines 1208-1212 and 1285-1307)

drawCosmos computes a fade envelope a = smoothstep(0, 0.05, t) * (1 -
smoothstep(0.92, 1, t)) and returns before painting when a is not
positive; the candle block runs when candleP = smoothstep(0.03, 0.2, t) is
positive, and for side and candle index i applies volatility and bias
jitter to the stored prices, re-clamping each price into [0.1, 0.9]
independently via clampPrice. -/

noncomputable def drawCosmosAlpha (t : ℝ) : ℝ := smoothstepR 0 0.05 t * (1 - smoothstepR 0.92 1 t)

noncomputable def candleProgress (t : ℝ) : ℝ := smoothstepR 0.03 0.2 t

/-- observatory.js line 1287. -/
noncomputable def clampPrice (v : ℝ) : ℝ := max 0.1 (min 0.9 v)

/-- observatory.js line 1296. -/
noncomputable def volatility (elapsed : ℝ) (i side : ℕ) (cp : ℝ) : ℝ :=
  Real.sin (elapsed * 0.003 + i * 0.22 + side * 0.5) * 0.08 * cp

/-- observatory.js line 1297. -/
noncomputable def biasJ (elapsed : ℝ) (i : ℕ) : ℝ := Real.cos (elapsed * 0.001 + i * 0.12) * 0.02

structure JitterCandle where
  openP : ℝ
  closeP : ℝ
  high : ℝ
  low : ℝ

/-- The four prices actually drawn for candle i on side at a frame with
phase-local progress t and absolute elapsed time (lines 1299-1302). -/
noncomputable def jitterCandle (c : Candle) (elapsed t : ℝ) (i side : ℕ) : JitterCandle :=
  let cp := candleProgress t
  let v := volatility elapsed i side cp
  let b := biasJ elapsed i
  { openP := clampPrice ((c.openP : ℝ) + v + b)
    closeP := clampPrice ((c.closeP : ℝ) + v * 0.9 - b * 0.5)
    high := clampPrice ((c.high : ℝ) + v * 1.15 + b)
    low := clampPrice ((c.low : ℝ) + v * 1.15 - b) }

theorem clampPrice_mem (x : ℝ) : (1 / 10 : ℝ) ≤ clampPrice x ∧ clampPrice x ≤ 9 / 10 := by
  unfold clampPrice
  constructor
  · apply le_max_of_le_left
    norm_num
  · apply max_le (by norm_num)
    exact le_trans (min_le_left _ _) (by norm_num)

theorem clampPrice_id (x : ℝ) (h1 : (1 / 10 : ℝ) ≤ x) (h2 : x ≤ 9 / 10) :
    clampPrice x = x := by
  unfold clampPrice
  rw [show (0.1 : ℝ) = 1 / 10 from by norm_num, show (0.9 : ℝ) = 9 / 10 from by norm_num,
    min_eq_right (by linarith), max_eq_right h1]

/-! ## Degenerate-viewport arithmetic (claim C9)

JS arithmetic is total: x % 0 and 0 / 0 produce NaN, modeled as none. -/

/-- JS truncation toward zero. -/
noncomputable def jsTrunc (q : ℝ) : ℤ := if 0 ≤ q then ⌊q⌋ else ⌈q⌉

/-- The JS remainder on reals; none models NaN for a zero divisor. -/
noncomputable def jsModR (a b : ℝ) : Option ℝ := if b = 0 then none else some (a - b * jsTrunc (a / b))

/-- JS division with the zero-divisor (NaN / infinity) case as none. -/
noncomputable def jsDivR (a b : ℝ) : Option ℝ := if b = 0 then none else some (a / b)

/-- Dust x position in drawInteriorObservatory (observatory.js line 475):
(p.x * w + sin(elapsed * 0.0003 + p.phase) * 25 + p.vx * elapsed * 0.02) % w. -/
noncomputable def dustPx (p : Dust) (w elapsed : ℝ) : Option ℝ :=
  jsModR ((p.x : ℝ) * w + Real.sin (elapsed * 0.0003 + (p.phase : ℝ)) * 25 +
    (p.vx : ℝ) * elapsed * 0.02) w

/-- Dust y position (observatory.js line 476): (p.y * h + elapsed * p.vy * 0.02 + h) % h. -/
noncomputable def dustPy (p : Dust) (h elapsed : ℝ) : Option ℝ :=
  jsModR ((p.y : ℝ) * h + elapsed * (p.vy : ℝ) * 0.02 + h) h

/-- The grid-row spread factor of drawDataTransform (observatory.js lines
1091-1094): vanY = cy * 0.3, gy = lerp(vanY, h * 0.96, (i/24)^1.5), spr =
(gy - vanY) / (h * 0.96 - vanY). -/
noncomputable def gridSpr (h : ℝ) (i : ℕ) : Option ℝ :=
  let cy := h / 2
  let vanY := cy * 0.3
  let gy := lerpR vanY (h * 0.96) (((i : ℝ) / 24) ^ (1.5 : ℝ))
  jsDivR (gy - vanY) (h * 0.96 - vanY)

/-! ## Landing-page pools (the unnamed source file)

initDots (lines 380-386) sizes the ambient-dots pool by viewport area:
numDots = floor(w * h / 8000); each Dot draws from Math.random, modeled by
an oracle stream rnd.  initIntroElements (lines 212-217) sizes the orbit
nodes by the smaller viewport dimension: floor(min(w,h) / 18), with 80
sparks and 3 halo rings. -/

structure DotP where
  x : ℚ
  y : ℚ
  baseSize : ℚ
  size : ℚ
  vx : ℚ
  vy : ℚ
  baseBrightness : ℚ
  brightness : ℚ
  brightnessSpeed : ℚ
  brightnessPhase : ℚ
  hue : ℚ

/-- One Dot constructor call (lines 323-342), drawing nine Math.random
values from the oracle; size and brightness start at their base values. -/
def mkDot (rnd : ℕ → ℚ) (w h : ℚ) (j : ℕ) : DotP :=
  { x := rnd (9 * j) * w
    y := rnd (9 * j + 1) * h
    baseSize := 1 + rnd (9 * j + 2) * 2
    size := 1 + rnd (9 * j + 2) * 2
    vx := (rnd (9 * j + 3) - 5 / 10) * (5 / 10)
    vy := (rnd (9 * j + 4) - 5 / 10) * (5 / 10)
    baseBrightness := 2 / 10 + rnd (9 * j + 5) * (3 / 10)
    brightness := 2 / 10 + rnd (9 * j + 5) * (3 / 10)
    brightnessSpeed := 5 / 1000 + rnd (9 * j + 6) * (2 / 100)
    brightnessPhase := rnd (9 * j + 7) * mathPi * 2
    hue := 240 + rnd (9 * j + 8) * 60 }

/-- numDots of line 382. -/
def numDots (w h : ℚ) : ℤ := ⌊w * h / 8000⌋

/-- The number of dots the init loop pushes (zero when numDots is not
positive). -/
def dotsCount (w h : ℚ) : ℕ := (numDots w h).toNat

/-- initDots, lines 380-386. -/
def initDots (rnd : ℕ → ℚ) (w h : ℚ) : List DotP :=
  (List.range (dotsCount w h)).map (mkDot rnd w h)

/-- nodeCount of line 213. -/
def introNodeCount (w h : ℚ) : ℕ := (⌊min w h / 18⌋).toNat

/-- Spark count of line 215. -/
def introSparkCount : ℕ := 80

/-- Halo-ring count of line 216. -/
def introRingCount : ℕ := 3

theorem initDots_length (rnd : ℕ → ℚ) (w h : ℚ) :
    (initDots rnd w h).length = dotsCount w h := by
  unfold initDots
  rw [List.length_map, List.length_range]

theorem dotsCount_mono (w1 h1 w2 h2 : ℚ) (hw0 : 0 ≤ w1) (hh0 : 0 ≤ h1)
    (hw : w1 ≤ w2) (hh : h1 ≤ h2) : dotsCount w1 h1 ≤ dotsCount w2 h2 := by
  unfold dotsCount numDots
  apply Int.toNat_le_toNat
  apply Int.floor_le_floor
  apply div_le_div_of_nonneg_right ?_ (by norm_num)
  exact mul_le_mul hw hh hh0 (le_trans hw0 hw)

theorem introNodeCount_mono (w1 h1 w2 h2 : ℚ) (hw : w1 ≤ w2) (hh : h1 ≤ h2) :
    introNodeCount w1 h1 ≤ introNodeCount w2 h2 := by
  unfold introNodeCount
  apply Int.toNat_le_toNat
  apply Int.floor_le_floor
  apply div_le_div_of_nonneg_right ?_ (by norm_num)
  exact min_le_min hw hh

/-! ## Claim theorems -/

/-- C5 counterexample: for seed 0 the generator state stays 0, so the very
first returned value is -1/2147483646, which is not in [0, 1); the claim
that every integer seed yields outputs in [0, 1) is false. -/
theorem c5_seed_zero_output_negative :
    nthOutput 0 0 = -(1 / 2147483646) ∧ nthOutput 0 0 < 0 := by
  constructor <;>
    norm_num [nthOutput, seedState, rngNext, rngOut, Int.zero_tmod]

/-- C5 (amended): the generator follows exactly the recurrence
state = (state * 16807) mod 2147483647, and for every seed in the range
[1, 2147483646] every returned value lies in [0, 1); for seeds outside
this range (for example 0, or any multiple of 2147483647) the outputs can
be negative, as the counterexample shows. -/
theorem c5_rng_recurrence_and_range (seed : ℤ) (h1 : 1 ≤ seed) (h2 : seed ≤ 2147483646)
    (n : ℕ) :
    seedState seed (n + 1) = Int.tmod (seedState seed n * 16807) 2147483647 ∧
    nthOutput seed n = (((seedState seed (n + 1) : ℚ)) - 1) / 2147483646 ∧
    0 ≤ nthOutput seed n ∧ nthOutput seed n < 1 := by
  refine ⟨rfl, rfl, ?_, ?_⟩
  · exact (rngOut_mem _ ((seedState_mem seed h1 h2 (n + 1)).1)
      ((seedState_mem seed h1 h2 (n + 1)).2)).1
  · exact (rngOut_mem _ ((seedState_mem seed h1 h2 (n + 1)).1)
      ((seedState_mem seed h1 h2 (n + 1)).2)).2

theorem c5_rng_recurrence_and_range_witness :
    (1 : ℤ) ≤ 42 ∧ (42 : ℤ) ≤ 2147483646 ∧
      (0 ≤ nthOutput 42 0 ∧ nthOutput 42 0 < 1) :=
  ⟨by decide, by decide,
    ⟨(c5_rng_recurrence_and_range 42 (by decide) (by decide) 0).2.2.1,
     (c5_rng_recurrence_and_range 42 (by decide) (by decide) 0).2.2.2⟩⟩

/-- C6: two generators created from equal seeds produce identical output
lists for every length n, and the stateful run is a pure function of the
seed and the output index, so no entropy outside the seed enters the
stream. -/
theorem c6_rng_deterministic (s1 s2 : ℤ) (n : ℕ) (h : s1 = s2) :
    runGenerator s1 n = runGenerator s2 n ∧
    runGenerator s1 n = (List.range n).map (nthOutput s1) := by
  subst h
  refine ⟨rfl, ?_⟩
  unfold runGenerator nthOutput
  exact runFrom_eq_map n s1

theorem c6_rng_deterministic_witness :
    runGenerator 42 2 = runGenerator 42 2 ∧
    runGenerator 42 2 = (List.range 2).map (nthOutput 42) :=
  c6_rng_deterministic 42 42 2 rfl

/-- C2: on every frame with elapsed below the total duration, the phase
pass invokes exactly those renderers whose window satisfies
startMs <= elapsed <= endMs, in the fixed listed back-to-front order
(drawApproach, drawOptics, drawDataTransform, drawCosmos), passing each
localT = (elapsed - startMs)/(endMs - startMs); localT is 0 at the window
start, 1 at the window end, and stays within [0, 1] throughout the
window. -/
theorem c2_phase_scheduler (e : ℚ) (h0 : 0 ≤ e) (h1 : e < DURATION) :
    frameInvocations e =
      ((if 0 ≤ e ∧ e ≤ 9000 then [(PhaseId.approach, localT e 0 9000)] else []) ++
        (if 6000 ≤ e ∧ e ≤ 18000 then [(PhaseId.optics, localT e 6000 18000)] else []) ++
        (if 15000 ≤ e ∧ e ≤ 26000 then [(PhaseId.dataTransform, localT e 15000 26000)] else []) ++
        (if 23000 ≤ e ∧ e ≤ 32000 then [(PhaseId.cosmos, localT e 23000 32000)] else [])) ∧
    (∀ s en : ℚ, s < en → s ≤ e → e ≤ en → 0 ≤ localT e s en ∧ localT e s en ≤ 1) ∧
    (∀ s en : ℚ, s < en → localT s s en = 0 ∧ localT en s en = 1) := by
  refine ⟨?_, ?_, ?_⟩
  · by_cases hA : (0 : ℚ) ≤ e ∧ e ≤ 9000 <;>
    by_cases hB : (6000 : ℚ) ≤ e ∧ e ≤ 18000 <;>
    by_cases hC : (15000 : ℚ) ≤ e ∧ e ≤ 26000 <;>
    by_cases hD : (23000 : ℚ) ≤ e ∧ e ≤ 32000 <;>
      simp [frameInvocations, phases, hA, hB, hC, hD]
  · intro s en hlt hle1 hle2
    unfold localT
    constructor
    · apply div_nonneg <;> linarith
    · rw [div_le_one (by linarith)]
      linarith
  · intro s en hlt
    constructor
    · unfold localT
      simp
    · unfold localT
      rw [div_self (ne_of_gt (by linarith : (0 : ℚ) < en - s))]

theorem c2_phase_scheduler_witness :
    (0 : ℚ) ≤ 7000 ∧ (7000 : ℚ) < DURATION ∧
      frameInvocations 7000 =
        ((if (0 : ℚ) ≤ 7000 ∧ (7000 : ℚ) ≤ 9000 then [(PhaseId.approach, localT 7000 0 9000)] else []) ++
          (if (6000 : ℚ) ≤ 7000 ∧ (7000 : ℚ) ≤ 18000 then [(PhaseId.optics, localT 7000 6000 18000)] else []) ++
          (if (15000 : ℚ) ≤ 7000 ∧ (7000 : ℚ) ≤ 26000 then [(PhaseId.dataTransform, localT 7000 15000 26000)] else []) ++
          (if (23000 : ℚ) ≤ 7000 ∧ (7000 : ℚ) ≤ 32000 then [(PhaseId.cosmos, localT 7000 23000 32000)] else [])) :=
  ⟨by norm_num, by norm_num [DURATION],
    (c2_phase_scheduler 7000 (by norm_num) (by norm_num [DURATION])).1⟩

/-- C3: with the 32000 ms duration and the four listed windows, elapsed
7000 activates exactly the first two renderers and elapsed 29000 exactly
the cosmos renderer; on the first frame at or past 32000 ms the controller
paints a final solid frame, invokes the completion callback exactly once,
and schedules no further frame, so later frame events have no effect. -/
theorem c3_end_to_end :
    (frameInvocations 7000).map Prod.fst = [PhaseId.approach, PhaseId.optics] ∧
    (frameInvocations 29000).map Prod.fst = [PhaseId.cosmos] ∧
    runTrace [Ev.frame 500, Ev.frame 32500] =
      { startTime := some 500, skipped := false, animId := true, pending := false,
        callbacks := 1, naturals := 1, paints := 2,
        lastPaint := some PaintKind.solidFinal } ∧
    runTrace [Ev.frame 500, Ev.frame 32500, Ev.frame 33000] =
      runTrace [Ev.frame 500, Ev.frame 32500] := by
  refine ⟨?_, ?_, ?_, ?_⟩
  · norm_num [frameInvocations, phases, localT, List.filterMap_cons]
  · norm_num [frameInvocations, phases, localT, List.filterMap_cons]
  · norm_num [runTrace, step, hostFrame, renderBody, startState, DURATION]
  · norm_num [runTrace, step, hostFrame, renderBody, startState, DURATION]

/-- C1 counterexample: skip() unconditionally invokes the completion
callback, so calling skip() twice invokes it twice; the terminal-state
flag guards only the render loop, not skip() itself, refuting the claim
that re-entrant skip() calls never invoke the callback again. -/
theorem c1_counterexample : (runTrace [Ev.skip, Ev.skip]).callbacks = 2 := by
  norm_num [runTrace, step, skipFn, startState]

/-- C1 (amended): over every event trace the completion callback fires
exactly (number of skip() calls) + (1 if the run completed naturally)
times, and natural completion happens at most once.  In particular a
single skip -- before the first frame, mid-run, or after natural
completion -- fires the callback once on that call and the render loop
never fires it again; but skip() itself has no terminal-state guard, so
every additional skip() call fires the callback once more. -/
theorem c1_callback_accounting (evs : List Ev) :
    (runTrace evs).callbacks = countSkips evs + (runTrace evs).naturals ∧
    (runTrace evs).naturals ≤ 1 := by
  have hinv : CtrlInv startState := by
    refine ⟨by norm_num [startState], ?_⟩
    intro hx
    simp [startState] at hx
  have h := run_accounting evs startState hinv
  obtain ⟨⟨h1, _⟩, h2⟩ := h
  unfold runTrace
  constructor
  · have hs1 : startState.naturals = 0 := rfl
    have hs2 : startState.callbacks = 0 := rfl
    omega
  · exact h1

/-- C8: skip() cancels the pending frame synchronously: after skip() the
skipped flag is set and no frame is pending, an already-dispatched render
callback returns immediately leaving the state untouched (no paint, no
callback, no scheduling), and any sequence of later frame events leaves
the post-skip state exactly unchanged, so a frame-count or paint-count
probe stays constant after the cancellation. -/
theorem c8_skip_cancels (st : CtrlState) (hpa : st.pending = true → st.animId = true)
    (tss : List ℚ) :
    (skipFn st).skipped = true ∧ (skipFn st).pending = false ∧
    (tss.map Ev.frame).foldl step (skipFn st) = skipFn st ∧
    (∀ (ts : ℚ) (st' : CtrlState), st'.skipped = true → renderBody ts st' = st') := by
  have hsk : (skipFn st).skipped = true := by
    cases ha : st.animId <;> simp [skipFn, ha]
  have hpd : (skipFn st).pending = false := by
    cases ha : st.animId with
    | true => simp [skipFn, ha]
    | false =>
      have hp0 : st.pending = false := by
        cases hp : st.pending with
        | false => rfl
        | true => rw [hpa hp] at ha; exact absurd ha (by simp)
      simp [skipFn, ha, hp0]
  refine ⟨hsk, hpd, frames_noop tss _ hsk hpd, ?_⟩
  intro ts st' hsk'
  simp [renderBody, hsk']

theorem c8_skip_cancels_witness :
    (skipFn startState).skipped = true ∧ (skipFn startState).pending = false ∧
    (([(100 : ℚ), 200]).map Ev.frame).foldl step (skipFn startState) = skipFn startState ∧
    (∀ (ts : ℚ) (st' : CtrlState), st'.skipped = true → renderBody ts st' = st') :=
  c8_skip_cancels startState (fun _ => rfl) [100, 200]

/-- C10: initParticles reseeds its generator with the constant 42 and its
body never reads the viewport, so the pools generated for any two viewport
sizes -- for example across a resize() -- are identical in every
generation-time field. -/
theorem c10_pools_viewport_independent (w1 h1 w2 h2 : ℚ) :
    initParticles w1 h1 = initParticles w2 h2 := rfl

/-- C7: pool element counts after initialization scale monotonically with
the viewport: the observatory pools have fixed counts (so a larger
viewport yields at least as many elements, with equality), the ambient
dots pool grows with viewport area (floor(w*h/8000)), and the orbit-node
pool grows with the smaller viewport dimension (floor(min(w,h)/18)); the
spark and halo-ring pools are fixed at 80 and 3. -/
theorem c7_pool_counts_monotone (rnd : ℕ → ℚ) (w1 h1 w2 h2 : ℚ)
    (hw0 : 0 ≤ w1) (hh0 : 0 ≤ h1) (hw : w1 ≤ w2) (hh : h1 ≤ h2) :
    ((initParticles w1 h1).bgStars.length = 180 ∧
      (initParticles w1 h1).dust.length = 300 ∧
      (initParticles w1 h1).lensRings.length = 12 ∧
      (initParticles w1 h1).stars.length = 800 ∧
      (initParticles w1 h1).neural.nodes.length = 55 ∧
      (initParticles w1 h1).candles.length = 80 ∧
      (initParticles w1 h1).comets.length = 12 ∧
      (initParticles w1 h1).orderCols.length = 45) ∧
    ((initParticles w1 h1).bgStars.length ≤ (initParticles w2 h2).bgStars.length ∧
      (initParticles w1 h1).dust.length ≤ (initParticles w2 h2).dust.length ∧
      (initParticles w1 h1).lensRings.length ≤ (initParticles w2 h2).lensRings.length ∧
      (initParticles w1 h1).stars.length ≤ (initParticles w2 h2).stars.length ∧
      (initParticles w1 h1).neural.nodes.length ≤ (initParticles w2 h2).neural.nodes.length ∧
      (initParticles w1 h1).neural.edges.length ≤ (initParticles w2 h2).neural.edges.length ∧
      (initParticles w1 h1).candles.length ≤ (initParticles w2 h2).candles.length ∧
      (initParticles w1 h1).comets.length ≤ (initParticles w2 h2).comets.length ∧
      (initParticles w1 h1).orderCols.length ≤ (initParticles w2 h2).orderCols.length) ∧
    (initDots rnd w1 h1).length ≤ (initDots rnd w2 h2).length ∧
    introNodeCount w1 h1 ≤ introNodeCount w2 h2 ∧
    introSparkCount ≤ introSparkCount ∧ introRingCount ≤ introRingCount := by
  refine ⟨?_, ?_, ?_, ?_, le_rfl, le_rfl⟩
  · exact ⟨buildFrom_length mkBgStar 180 0 0, buildFrom_length mkDust 300 0 _,
      buildFrom_length mkLensRing 12 0 _, buildFrom_length mkGalaxyStar 800 0 _,
      buildFrom_length mkNeuralNode 55 0 _, buildFrom_length mkCandle 80 0 _,
      buildFrom_length mkComet 12 0 _, buildFrom_length mkOrderCol 45 0 _⟩
  · exact ⟨le_rfl, le_rfl, le_rfl, le_rfl, le_rfl, le_rfl, le_rfl, le_rfl, le_rfl⟩
  · rw [initDots_length, initDots_length]
    exact dotsCount_mono w1 h1 w2 h2 hw0 hh0 hw hh
  · exact introNodeCount_mono w1 h1 w2 h2 hw hh

theorem c7_pool_counts_monotone_witness :
    (0 : ℚ) ≤ 100 ∧ (100 : ℚ) ≤ 200 ∧
    ((initDots (fun _ => 0) 100 100).length ≤ (initDots (fun _ => 0) 200 200).length ∧
      introNodeCount 100 100 ≤ introNodeCount 200 200) :=
  ⟨by norm_num, by norm_num,
    (c7_pool_counts_monotone (fun _ => 0) 100 100 200 200
      (by norm_num) (by norm_num) (by norm_num) (by norm_num)).2.2.1,
    (c7_pool_counts_monotone (fun _ => 0) 100 100 200 200
      (by norm_num) (by norm_num) (by norm_num) (by norm_num)).2.2.2.1⟩

/-- C9 counterexample: the dust-particle wrap of drawInteriorObservatory
computes (...) % w and (...) % h with no guard, and the perspective grid
of drawDataTransform divides by h*0.96 - vanY with no guard; on a
degenerate viewport (w = 0 or h = 0) these are a modulo and a division by
zero (NaN), so the claim that every division or modulo by a viewport
dimension inside the renderers is guarded is false. -/
theorem c9_counterexample :
    dustPx ⟨1 / 2, 1 / 2, 1, 0, -(1 / 50), 1 / 2, 0⟩ 0 1000 = none ∧
    gridSpr 0 5 = none := by
  constructor
  · simp [dustPx, jsModR]
  · simp [gridSpr, jsDivR]

/-- C9 (amended): the renderers do not guard divisions and moduli by the
viewport dimensions: on a degenerate viewport every interior dust position
and every data-transform grid row evaluates to NaN (modeled none); the
code relies on the canvas host ignoring non-finite coordinates rather
than on guards. -/
theorem c9_unguarded_viewport_divisions (w h elapsed : ℝ) (p : Dust) (i : ℕ)
    (hw : w = 0) (hh : h = 0) :
    dustPx p w elapsed = none ∧ dustPy p h elapsed = none ∧ gridSpr h i = none := by
  subst hw
  subst hh
  refine ⟨?_, ?_, ?_⟩
  · simp [dustPx, jsModR]
  · simp [dustPy, jsModR]
  · simp [gridSpr, jsDivR]

theorem c9_unguarded_viewport_divisions_witness :
    dustPx ⟨0, 0, 1, 0, 0, 1, 0⟩ 0 7 = none ∧
    dustPy ⟨0, 0, 1, 0, 0, 1, 0⟩ 0 7 = none ∧ gridSpr 0 3 = none :=
  c9_unguarded_viewport_divisions 0 0 7 ⟨0, 0, 1, 0, 0, 1, 0⟩ 3 rfl rfl

/-! ## Claim C4: the candle invariant under per-frame jitter -/

/-- The generated values of candle number 35 of the pool. -/
def candle35 : Candle :=
  { openP := 2352610157 / 3579139410, closeP := 4697542873 / 10737418230,
    high := 11909912519 / 17895697050, low := 1539720373 / 3579139410,
    bull := false }

theorem candles_get35_val (w h : ℚ) :
    (initParticles w h).candles.get? 35 = some candle35 := by
  rw [candles_get35, candle35_val]
  rfl

/-- The counterexample frame time: at elapsed e0 the volatility sine
argument for candle 35 on side 0 is exactly 55*pi/2, whose sine is -1. -/
noncomputable def e0 : ℝ := (55 * Real.pi / 2 - 77 / 10) * 1000 / 3

/-- The cosmos-phase local progress at elapsed e0. -/
noncomputable def t0 : ℝ := (e0 - 23000) / 9000

theorem e0_bounds : 26231 < e0 ∧ e0 < 26232 := by
  have h1 := Real.pi_gt_d6
  have h2 := Real.pi_lt_d6
  unfold e0
  constructor <;> nlinarith [h1, h2]

theorem t0_bounds : (2 : ℝ) / 10 ≤ t0 ∧ t0 ≤ 92 / 100 := by
  obtain ⟨h1, h2⟩ := e0_bounds
  unfold t0
  constructor
  · rw [le_div_iff (by norm_num)]
    linarith
  · rw [div_le_iff (by norm_num)]
    linarith

theorem candleProgress_t0 : candleProgress t0 = 1 := by
  unfold candleProgress
  apply smoothstepR_of_ge _ _ _ (by norm_num)
  have := t0_bounds.1
  norm_num at this ⊢
  linarith

theorem alpha_t0 : drawCosmosAlpha t0 = 1 := by
  obtain ⟨h1, h2⟩ := t0_bounds
  unfold drawCosmosAlpha
  rw [smoothstepR_of_ge 0 0.05 t0 (by norm_num) (by norm_num at h1 ⊢; linarith),
    smoothstepR_of_le 0.92 1 t0 (by norm_num) (by norm_num at h2 ⊢; linarith)]
  norm_num

theorem sin_55_pi_div_two : Real.sin (55 * Real.pi / 2) = -1 := by
  have h1 : (55 : ℝ) * Real.pi / 2 = (Real.pi / 2 + Real.pi) + (13 : ℤ) * (2 * Real.pi) := by
    push_cast
    ring
  rw [h1, Real.sin_add_int_mul_two_pi, Real.sin_add_pi, Real.sin_pi_div_two]

theorem vol_e0 : volatility e0 35 0 1 = -(2 / 25) := by
  unfold volatility
  have harg : e0 * 0.003 + (35 : ℕ) * 0.22 + (0 : ℕ) * 0.5 = 55 * Real.pi / 2 := by
    unfold e0
    push_cast
    ring
  rw [harg, sin_55_pi_div_two]
  norm_num

theorem bias_bound (elapsed : ℝ) (i : ℕ) :
    -(1 / 50) ≤ biasJ elapsed i ∧ biasJ elapsed i ≤ 1 / 50 := by
  unfold biasJ
  constructor
  · nlinarith [Real.neg_one_le_cos (elapsed * 0.001 + i * 0.12)]
  · nlinarith [Real.cos_le_one (elapsed * 0.001 + i * 0.12)]

/-- C4 counterexample: at the frame with elapsed e0 -- inside the cosmos
window, with the scene alpha and the candle activation both at full
strength -- the drawn, re-clamped prices of candle 35 on side 0 violate
the invariant: the drawn high lies strictly below the drawn
max(open, close), because clampPrice re-clamps each price separately and
the high receives a larger negative volatility term (1.15 * v) than the
open (v) while high - max(open, close) is only about 0.0082 at
generation. -/
theorem c4_counterexample :
    (initParticles 800 600).candles.get? 35 = some candle35 ∧
    23000 ≤ e0 ∧ e0 < 32000 ∧ t0 = (e0 - 23000) / 9000 ∧
    0 < drawCosmosAlpha t0 ∧ 0 < candleProgress t0 ∧
    (jitterCandle candle35 e0 t0 35 0).high <
      max (jitterCandle candle35 e0 t0 35 0).openP
        (jitterCandle candle35 e0 t0 35 0).closeP := by
  obtain ⟨he1, he2⟩ := e0_bounds
  refine ⟨candles_get35_val 800 600, by linarith, by linarith, rfl, ?_, ?_, ?_⟩
  · rw [alpha_t0]
    norm_num
  · rw [candleProgress_t0]
    norm_num
  · have hv : volatility e0 35 0 (candleProgress t0) = -(2 / 25) := by
      rw [candleProgress_t0]
      exact vol_e0
    obtain ⟨hb1, hb2⟩ := bias_bound e0 35
    have ho : ((candle35.openP : ℚ) : ℝ) = 2352610157 / 3579139410 := by
      norm_num [candle35]
    have hc : ((candle35.closeP : ℚ) : ℝ) = 4697542873 / 10737418230 := by
      norm_num [candle35]
    have hhi : ((candle35.high : ℚ) : ℝ) = 11909912519 / 17895697050 := by
      norm_num [candle35]
    unfold jitterCandle
    dsimp only
    rw [hv, ho, hc, hhi]
    have hOpen : clampPrice (2352610157 / 3579139410 + -(2 / 25) + biasJ e0 35) =
        2352610157 / 3579139410 + -(2 / 25) + biasJ e0 35 := by
      apply clampPrice_id
      · linarith
      · linarith
    have hClose : clampPrice (4697542873 / 10737418230 + -(2 / 25) * 0.9 - biasJ e0 35 * 0.5) =
        4697542873 / 10737418230 + -(2 / 25) * 0.9 - biasJ e0 35 * 0.5 := by
      apply clampPrice_id
      · norm_num
        linarith
      · norm_num
        linarith
    have hHigh : clampPrice (11909912519 / 17895697050 + -(2 / 25) * 1.15 + biasJ e0 35) =
        11909912519 / 17895697050 + -(2 / 25) * 1.15 + biasJ e0 35 := by
      apply clampPrice_id
      · norm_num
        linarith
      · norm_num
        linarith
    rw [hOpen, hClose, hHigh]
    rw [max_eq_left (by norm_num; linarith)]
    norm_num

/-- C4 (amended): at pool initialization every candle satisfies
high >= max(open, close) and low <= min(open, close), and the per-frame
jitter of drawCosmos re-clamps each of the four drawn prices into
[0.1, 0.9]; the ordering invariant itself, however, is not re-established
by that per-price clamping and can fail on drawn frames (see the
counterexample). -/
theorem c4_init_invariant_and_clamp (w h : ℚ) (i : ℕ) (c : Candle)
    (hc : (initParticles w h).candles.get? i = some c) :
    (max c.openP c.closeP ≤ c.high ∧ c.low ≤ min c.openP c.closeP) ∧
    ∀ (elapsed t : ℝ) (side : ℕ),
      ((1 : ℝ) / 10 ≤ (jitterCandle c elapsed t i side).openP ∧
        (jitterCandle c elapsed t i side).openP ≤ 9 / 10) ∧
      ((1 : ℝ) / 10 ≤ (jitterCandle c elapsed t i side).closeP ∧
        (jitterCandle c elapsed t i side).closeP ≤ 9 / 10) ∧
      ((1 : ℝ) / 10 ≤ (jitterCandle c elapsed t i side).high ∧
        (jitterCandle c elapsed t i side).high ≤ 9 / 10) ∧
      ((1 : ℝ) / 10 ≤ (jitterCandle c elapsed t i side).low ∧
        (jitterCandle c elapsed t i side).low ≤ 9 / 10) := by
  constructor
  · rw [initParticles_candles] at hc
    have hlen : (build mkCandle 80 12001).1.length = 80 :=
      buildFrom_length mkCandle 80 0 12001
    have hi80 : i < 80 := by
      by_contra hge
      rw [List.get?_eq_none.mpr (by rw [hlen]; omega)] at hc
      exact Option.noConfusion hc
    rw [build_get? mkCandle 4 mkCandle_snd 80 12001 i hi80] at hc
    injection hc with hc
    rw [← hc]
    dsimp only [mkCandle]
    constructor
    · exact le_add_of_nonneg_right (mul_nonneg (val_mem _).1 (by norm_num))
    · exact sub_le_self _ (mul_nonneg (val_mem _).1 (by norm_num))
  · intro elapsed t side
    unfold jitterCandle
    dsimp only
    exact ⟨clampPrice_mem _, clampPrice_mem _, clampPrice_mem _, clampPrice_mem _⟩

theorem c4_init_invariant_and_clamp_witness :
    (max candle35.openP candle35.closeP ≤ candle35.high ∧
      candle35.low ≤ min candle35.openP candle35.closeP) ∧
    ((1 : ℝ) / 10 ≤ (jitterCandle candle35 0 0 35 0).openP ∧
      (jitterCandle candle35 0 0 35 0).openP ≤ 9 / 10) ∧
    ((1 : ℝ) / 10 ≤ (jitterCandle candle35 0 0 35 0).closeP ∧
      (jitterCandle candle35 0 0 35 0).closeP ≤ 9 / 10) ∧
    ((1 : ℝ) / 10 ≤ (jitterCandle candle35 0 0 35 0).high ∧
      (jitterCandle candle35 0 0 35 0).high ≤ 9 / 10) ∧
    ((1 : ℝ) / 10 ≤ (jitterCandle candle35 0 0 35 0).low ∧
      (jitterCandle candle35 0 0 35 0).low ≤ 9 / 10) :=
  ⟨(c4_init_invariant_and_clamp 800 600 35 candle35 (candles_get35_val 800 600)).1,
    (c4_init_invariant_and_clamp 800 600 35 candle35 (candles_get35_val 800 600)).2 0 0 0⟩
